import Mathlib

/-!
Shallow embedding of `src/form2sdc/validator.py` (class `Form2SDCValidator`).

The validator is a pure line-oriented static analyzer.  We model Python
strings as `String`/`List Char`, Python lists as `List`, and the mutable
issue buffers (`self._errors`, `self._warnings`, `self._suggestions`) as an
explicit state record that is threaded through the phases.

External, fallible primitives of the Python runtime (the YAML parser
`yaml.safe_load`, `float`/`int` literal parsing, `date.fromisoformat`,
`re.compile` validity of user patterns) are modelled as oracle parameters
collected in a `Prims` record: the validator only branches on their
outcomes, so every theorem quantifies over all oracle behaviours, and
concrete witnesses instantiate them with small tables that agree with the
real primitives on the inputs involved.  The wall-clock timestamp that
`_build_result` stores (`datetime.now(...)`) is modelled as an explicit
`now : String` argument.  The regular expressions that the validator itself
applies to each line (`heading_re`, `bold_re`, `keyword_re`, the
name-suggestion table, ...) are fixed patterns and are embedded as concrete
character-level scanners with the exact backtracking semantics of `re`.
String case folding and whitespace are restricted to ASCII.
-/

namespace Form2SDC

/-- Characters stripped by Python's argument-less `str.strip()` (ASCII part). -/
def isPySpace (c : Char) : Bool :=
  c = ' ' ∨ c = '\t' ∨ c = '\n' ∨ c = '\x0d' ∨ c = '\x0b' ∨ c = '\x0c'

/-- Python `str.strip()` on a character list. -/
def pyStripL (l : List Char) : List Char :=
  ((l.dropWhile isPySpace).reverse.dropWhile isPySpace).reverse

/-- Python `str.strip()` on a string. -/
def pyStripS (s : String) : String :=
  (pyStripL s.toList).asString

/-- Python `content.split("\n")`: split on newline, keeping empty pieces. -/
def splitNL : List Char → List (List Char)
  | [] => [[]]
  | c :: rest =>
    match splitNL rest with
    | [] => [[c]]
    | l :: ls => if c = '\n' then [] :: l :: ls else (c :: l) :: ls

/-- Python `"\n".join(pieces)`. -/
def joinNL : List (List Char) → List Char
  | [] => []
  | [l] => l
  | l :: ls => l ++ '\n' :: joinNL ls

/-- Python `content.lstrip("﻿")`: drop every leading byte-order mark. -/
def dropBOM (l : List Char) : List Char :=
  l.dropWhile (fun c => c = Char.ofNat 65279)

/-- ASCII lower-casing of one character (Python `str.lower()` on ASCII input). -/
def lowerChar (c : Char) : Char :=
  if 'A' ≤ c ∧ c ≤ 'Z' then Char.ofNat (c.toNat + 32) else c

/-- ASCII lower-casing of a character list. -/
def lowerL (l : List Char) : List Char := l.map lowerChar

/-- Does `l` start with `p`? -/
def startsWithL : List Char → List Char → Bool
  | _, [] => true
  | [], _ :: _ => false
  | c :: cs, p :: ps => c = p ∧ startsWithL cs ps

/-- Does `l` contain `p` as a contiguous sublist (Python `p in l`)? -/
def hasSub (l p : List Char) : Bool :=
  match l with
  | [] => startsWithL [] p
  | _ :: rest => startsWithL l p ∨ hasSub rest p

/-- Does `l` end with `p`? -/
def endsWithL (l p : List Char) : Bool :=
  startsWithL l.reverse p.reverse

/-- Decimal rendering of a natural number, as Python `str(n)` / f-strings. -/
def natStr (n : Nat) : String := toString n

/-- One validation finding (dataclass `ValidationIssue`). -/
structure ValidationIssue where
  code : String
  severity : String
  message : String
  line : Nat
  column : Option Nat := none
  context : String := ""
  fix : String := ""
  component : Option String := none
  keyword : Option String := none
  deriving Repr, DecidableEq, Inhabited

/-- The metadata dict assembled by `_build_result` (fixed key set). -/
structure ResultMetadata where
  validator : String
  version : String
  validation_time : String
  document : String
  total_components : Nat
  critical_count : Nat
  warning_count : Nat
  suggestion_count : Nat
  deriving Repr, DecidableEq

/-- Complete validation output (dataclass `ValidationResult`). -/
structure ValidationResult where
  valid : Bool
  errors : List ValidationIssue
  warnings : List ValidationIssue
  suggestions : List ValidationIssue
  metadata : ResultMetadata
  deriving Repr, DecidableEq

/-- The mutable issue buffers of `Form2SDCValidator`, as explicit state. -/
structure St where
  errors : List ValidationIssue := []
  warnings : List ValidationIssue := []
  suggestions : List ValidationIssue := []
  deriving Repr, DecidableEq

/-- The `_add_error` helper: append a CRITICAL issue. -/
def addError (st : St) (code : String) (line : Nat) (message : String)
    (fix : String := "") (component : Option String := none)
    (keyword : Option String := none) : St :=
  { st with errors := st.errors ++
      [{ code := code, severity := "CRITICAL", message := message, line := line,
         context := "", fix := fix, component := component, keyword := keyword }] }

/-- The `_add_warning` helper: append a WARNING issue. -/
def addWarning (st : St) (code : String) (line : Nat) (message : String)
    (fix : String := "") (component : Option String := none)
    (keyword : Option String := none) : St :=
  { st with warnings := st.warnings ++
      [{ code := code, severity := "WARNING", message := message, line := line,
         context := "", fix := fix, component := component, keyword := keyword }] }

/-- The `_add_suggestion` helper: append a SUGGESTION issue. -/
def addSuggestion (st : St) (code : String) (line : Nat) (message : String)
    (fix : String := "") (component : Option String := none)
    (keyword : Option String := none) : St :=
  { st with suggestions := st.suggestions ++
      [{ code := code, severity := "SUGGESTION", message := message, line := line,
         context := "", fix := fix, component := component, keyword := keyword }] }

/-- A keyword's raw textual value and source line (dataclass `_KeywordValue`). -/
structure KeywordValue where
  value : String
  line : Nat
  deriving Repr, DecidableEq, Inhabited

/-- A parsed component (dataclass `_Component`): the keyword dict is an
association list whose insertion order models Python dict order, next to the
separate `keyword_order` list the code maintains. -/
structure Component where
  name : String
  start_line : Nat
  keywords : List (String × KeywordValue) := []
  keyword_order : List String := []
  deriving Repr, DecidableEq, Inhabited

/-- Lookup in the keyword dict (first binding; keys are unique by construction). -/
def kwFind (c : Component) (k : String) : Option KeywordValue :=
  (c.keywords.find? (fun e => e.1 = k)).map (·.2)

/-- Python `k in component.keywords`. -/
def kwHas (c : Component) (k : String) : Bool :=
  (kwFind c k).isSome

/-- Python dict assignment `d[k] = v`: overwrite in place or append. -/
def kwInsert (kws : List (String × KeywordValue)) (k : String) (v : KeywordValue) :
    List (String × KeywordValue) :=
  if (kws.find? (fun e => e.1 = k)).isSome then
    kws.map (fun e => if e.1 = k then (k, v) else e)
  else kws ++ [(k, v)]

/-- A value as returned by `yaml.safe_load`, reduced to what the validator
inspects: strings, nested mappings, and anything else carrying only its
Python truthiness. -/
inductive YVal where
  | str : String → YVal
  | dict : List (String × YVal) → YVal
  | other : Bool → YVal

/-- Python truthiness of a `YVal`. -/
def YVal.truthy : YVal → Bool
  | .str s => s ≠ ""
  | .dict d => !d.isEmpty
  | .other b => b

/-- Python `isinstance(v, dict)`. -/
def YVal.isDictB : YVal → Bool
  | .dict _ => true
  | _ => false

/-- First binding for a key in a mapping (`d[k]` / `d.get(k)` on a dict). -/
def dictFind (d : List (String × YVal)) (k : String) : Option YVal :=
  (d.find? (fun e => e.1 = k)).map (·.2)

/-- Python `k in d`. -/
def dictHas (d : List (String × YVal)) (k : String) : Bool :=
  (dictFind d k).isSome

/-- Python truthiness of `d.get(k)` (`None` when absent is falsy). -/
def dictTruthy (d : List (String × YVal)) (k : String) : Bool :=
  match dictFind d k with
  | some v => v.truthy
  | none => false

/-- Outcome of `yaml.safe_load`: a value, or a raised `yaml.YAMLError`
carrying an optional `problem_mark.line` (0-based within the block) and the
exception's string rendering `str(e)`. -/
inductive YamlResult where
  | ok : YVal → YamlResult
  | raised : Option Nat → String → YamlResult

/-- A `datetime.date` as produced by `date.fromisoformat`; Python compares
dates lexicographically on (year, month, day). -/
structure PyDate where
  year : Nat
  month : Nat
  day : Nat
  deriving Repr, DecidableEq

/-- Python `d1 > d2` on dates. -/
def dateGtB (d1 d2 : PyDate) : Bool :=
  d1.year > d2.year ∨
    (d1.year = d2.year ∧
      (d1.month > d2.month ∨ (d1.month = d2.month ∧ d1.day > d2.day)))

/-- External fallible primitives of the Python runtime, as oracles.  `Fl` is
the carrier of `float` values; `floatParse s = none` models `float(s)`
raising `ValueError`, and likewise for `intOk`, `dateParse`, `regexOk`
(`re.compile` of a user pattern succeeding) and `yamlLoad`. -/
structure Prims where
  Fl : Type
  yamlLoad : String → YamlResult
  floatParse : String → Option Fl
  fgt : Fl → Fl → Bool
  intOk : String → Bool
  dateParse : String → Option PyDate
  regexCompileErr : String → Option String

/-- The `---` delimiter line, stripped. -/
def dashes : List Char := ['-', '-', '-']

/-- The scan `for i in range(1, len(lines))` of `_extract_yaml_and_body`,
called with the lines after the first and `i = 1`: index of the first line
whose `strip()` equals `---`. -/
def findClose : Nat → List (List Char) → Option Nat
  | _, [] => none
  | i, l :: rest => if pyStripL l = dashes then some i else findClose (i + 1) rest

/-- The `_extract_yaml_and_body` method.  Returns the optional YAML block,
the body, and the value left in `self._yaml_end_line` (0 when unset). -/
def extractYamlAndBody (content : String) : Option String × String × Nat :=
  let cs := dropBOM content.toList
  let lines := splitNL cs
  if pyStripL (lines.headD []) ≠ dashes then (none, cs.asString, 0)
  else
    match findClose 1 (lines.drop 1) with
    | none => (none, cs.asString, 0)
    | some i =>
        (some (joinNL ((lines.drop 1).take (i - 1))).asString,
         (joinNL (lines.drop (i + 1))).asString,
         i + 1)

/-- The `_parse_yaml` method: returns the updated state and the parsed
front-matter mapping, or `none` after reporting `E-DOC-002`. -/
def parseYaml (p : Prims) (st : St) (yamlBlock : String) :
    St × Option (List (String × YVal)) :=
  match p.yamlLoad yamlBlock with
  | .ok (.dict d) => (st, some d)
  | .ok _ =>
      (addError st "E-DOC-002" 2
        "YAML front matter must be a mapping (key: value pairs)"
        "Ensure front matter contains key-value pairs like 'project_name: \"My Project\"'",
       none)
  | .raised mark msg =>
      let line := match mark with
        | some l => l + 2
        | none => 2
      (addError st "E-DOC-002" line ("Invalid YAML syntax: " ++ msg)
        "Fix YAML syntax errors (check quotes, indentation, colons)",
       none)

/-- The normalized front-matter view built by `_normalize_front_matter`. -/
structure NormalizedFM where
  project_name : Option YVal := none
  source_language : Option YVal := none
  template_version : Option YVal := none

/-- The `_normalize_front_matter` method. -/
def normalizeFrontMatter (fm : List (String × YVal)) : NormalizedFM :=
  let project_name :=
    if dictHas fm "project_name" then dictFind fm "project_name"
    else
      match dictFind fm "dataset" with
      | some (.dict ds) => if dictTruthy ds "name" then dictFind ds "name" else none
      | _ => none
  { project_name := project_name,
    source_language := if dictHas fm "source_language" then dictFind fm "source_language" else none,
    template_version := if dictHas fm "template_version" then dictFind fm "template_version" else none }

/-- Python truthiness of `normalized.get(k)` for the normalized mapping. -/
def optTruthy : Option YVal → Bool
  | some v => v.truthy
  | none => false

/-- Python `isinstance(fm.get("dataset"), dict) and key in fm["dataset"]`. -/
def datasetHas (fm : List (String × YVal)) (k : String) : Bool :=
  match dictFind fm "dataset" with
  | some (.dict ds) => dictHas ds k
  | _ => false

/-- The `_validate_front_matter` method (E-DOC-003/004/005 and S-QL-005). -/
def validateFrontMatter (st : St) (fm : List (String × YVal)) : St :=
  let normalized := normalizeFrontMatter fm
  let st :=
    if ¬ optTruthy normalized.project_name then
      addError st "E-DOC-003" 2
        "Missing required field 'project_name' in YAML front matter"
        "Add 'project_name: \"Your Project Name\"' to front matter"
    else st
  let st :=
    if ¬ optTruthy normalized.source_language then
      addError st "E-DOC-004" 2
        "Missing required field 'source_language' in YAML front matter"
        "Add 'source_language: \"English\"' (or appropriate language) to front matter"
    else st
  let st :=
    if ¬ optTruthy normalized.template_version then
      addError st "E-DOC-005" 2
        "Missing required field 'template_version' in YAML front matter"
        "Add 'template_version: \"4.0.0\"' to front matter"
    else st
  let st :=
    if ¬ dictHas fm "description" ∧ ¬ datasetHas fm "description" then
      addSuggestion st "S-QL-005" 2
        "Consider adding a 'description' field to front matter"
        "Add 'description: \"Brief description of the template\"'"
    else st
  if ¬ dictHas fm "author" ∧ ¬ dictHas fm "creator" ∧ ¬ datasetHas fm "creator" then
    addSuggestion st "S-QL-005" 2
      "Consider adding an 'author' field to front matter for traceability"
      "Add 'author: \"Your Name or Organization\"'"
  else st

/-- Scanner for `heading_re = ^(#{1,6})\s+(.+)` applied to one body
line (which contains no newline): returns the raw capture of group 2.
`#{1,6}` is greedy and can only shrink onto further `#` characters, which
`\s+` rejects, so the match is decided by the full run of leading hashes;
when everything after the whitespace run is empty, `\s+` backtracks by one
character and `(.+)` captures that single whitespace character. -/
def headingMatch (line : List Char) : Option (List Char) :=
  let n := (line.takeWhile (· = '#')).length
  if 1 ≤ n ∧ n ≤ 6 then
    let rest := line.drop n
    let ws := rest.takeWhile isPySpace
    let tail := rest.dropWhile isPySpace
    if 1 ≤ ws.length ∧ !tail.isEmpty then some tail
    else if 2 ≤ ws.length ∧ tail.isEmpty then some (ws.drop (ws.length - 1))
    else none
  else none

/-- Backtracking scan for `bold_re = ^\*\*(.+?)\*\*\s*$` after the opening
`**`: grow the lazy group one character at a time until the next two
characters are `**` and everything after them is whitespace. -/
def boldScan (acc rem : List Char) : Option (List Char) :=
  match rem with
  | [] => none
  | c :: rest =>
    if !acc.isEmpty ∧ c = '*' ∧ rest.headD ' ' = '*' ∧ (rest.drop 1).all isPySpace ∧
        !rest.isEmpty then
      some acc
    else boldScan (acc ++ [c]) rest

/-- Scanner for `bold_re = ^\*\*(.+?)\*\*\s*$`: returns the raw capture of
group 1. -/
def boldMatch (line : List Char) : Option (List Char) :=
  match line with
  | '*' :: '*' :: m => boldScan [] m
  | _ => none

/-- Backtracking scan for `keyword_re = ^\*\*(.+?)\*\*:\s*(.*)` after the
opening `**`: grow the lazy group until the next three characters are `**:`;
group 2 is the remainder with the greedy `\s*` run removed. -/
def keywordScan (acc rem : List Char) : Option (List Char × List Char) :=
  match rem with
  | '*' :: '*' :: ':' :: rest =>
    if !acc.isEmpty then some (acc, rest.dropWhile isPySpace)
    else keywordScan (acc ++ ['*']) ('*' :: ':' :: rest)
  | c :: rest => if acc.isEmpty then keywordScan [c] rest else keywordScan (acc ++ [c]) rest
  | [] => none

/-- Scanner for `keyword_re`: returns `(group 1, group 2)` raw. -/
def keywordMatch (line : List Char) : Option (List Char × List Char) :=
  match line with
  | '*' :: '*' :: m => keywordScan [] m
  | _ => none

/-- The deprecated keyword aliases (`KEYWORD_ALIASES`). -/
def keywordAlias (k : String) : Option String :=
  if k = "Values" then some "Enumeration"
  else if k = "Unit" then some "Units"
  else none

/-- The `_process_keyword` method: alias normalization with deprecation
warnings, then record the keyword value and extend the order list. -/
def processKeyword (st : St) (c : Component) (keyword value : String)
    (lineNum : Nat) : St × Component :=
  let (st, keyword) :=
    match keywordAlias keyword with
    | some newKeyword =>
        let st :=
          if keyword = "Values" then
            addWarning st "W-DEP-001" lineNum
              ("Keyword '**" ++ keyword ++ "**' is deprecated - use '**" ++
                newKeyword ++ "**' instead")
              ("Change '**" ++ keyword ++ "**' to '**" ++ newKeyword ++ "**'")
              (some c.name) (some keyword)
          else if keyword = "Unit" then
            addWarning st "W-DEP-002" lineNum
              ("Keyword '**" ++ keyword ++ "**' is deprecated - use '**" ++
                newKeyword ++ "**' instead")
              ("Change '**" ++ keyword ++ "**' to '**" ++ newKeyword ++ "**'")
              (some c.name) (some keyword)
          else st
        (st, newKeyword)
    | none => (st, keyword)
  (st,
   { c with keywords := kwInsert c.keywords keyword { value := value, line := lineNum },
            keyword_order := c.keyword_order ++ [keyword] })

/-- Loop body of `_parse_components`, iterating over the enumerated body
lines; `current` is the open component, `acc` the closed ones. -/
def parseComponentsGo (yamlEnd : Nat) (st : St) (current : Option Component)
    (acc : List Component) (i : Nat) :
    List (List Char) → St × List Component
  | [] =>
      match current with
      | some c => (st, acc ++ [c])
      | none => (st, acc)
  | line :: rest =>
    let lineNum := yamlEnd + i + 1
    let heading := headingMatch line
    let bold := if heading.isSome then none else boldMatch line
    if heading.isSome ∨ bold.isSome then
      if bold.isSome ∧ (keywordMatch line).isSome then
        match current, keywordMatch line with
        | some c, some (g1, g2) =>
            let (st, c) := processKeyword st c g1.asString (pyStripL g2).asString lineNum
            parseComponentsGo yamlEnd st (some c) acc (i + 1) rest
        | _, _ => parseComponentsGo yamlEnd st current acc (i + 1) rest
      else
        let acc := match current with
          | some c => acc ++ [c]
          | none => acc
        let nameRaw := match heading with
          | some g2 => g2
          | none => bold.getD []
        let c : Component := { name := (pyStripL nameRaw).asString, start_line := lineNum }
        parseComponentsGo yamlEnd st (some c) acc (i + 1) rest
    else
      match current, keywordMatch line with
      | some c, some (g1, g2) =>
          let (st, c) := processKeyword st c g1.asString (pyStripL g2).asString lineNum
          parseComponentsGo yamlEnd st (some c) acc (i + 1) rest
      | _, _ => parseComponentsGo yamlEnd st current acc (i + 1) rest

/-- The `_parse_components` method. -/
def parseComponents (st : St) (yamlEnd : Nat) (markdownBody : String) :
    St × List Component :=
  parseComponentsGo yamlEnd st none [] 0 (splitNL markdownBody.toList)

/-- The `VALID_TYPES` frozenset. -/
def VALID_TYPES : List String :=
  ["Cluster", "XdString", "XdBoolean", "XdCount", "XdQuantity", "XdFloat",
   "XdDouble", "XdTemporal", "XdOrdinal", "XdRatio", "XdInterval", "XdFile",
   "XdLink", "XdToken"]

/-- Python `", ".join(sorted(VALID_TYPES))` (sorted lexicographically). -/
def validTypesSorted : String :=
  "Cluster, XdBoolean, XdCount, XdDouble, XdFile, XdFloat, XdInterval, XdLink, XdOrdinal, XdQuantity, XdRatio, XdString, XdTemporal, XdToken"

/-- The `QUANTIFIED_TYPES` frozenset. -/
def QUANTIFIED_TYPES : List String := ["XdCount", "XdQuantity", "XdFloat", "XdDouble"]

/-- The `TYPE_SUGGESTIONS` table: each Python regex is an unanchored
case-insensitive `search` of alternated literals (some anchored with `^`/`$`),
embedded as substring / prefix / suffix tests on the lower-cased name. -/
def suggestTypeFromName (name : String) : Option String :=
  let n := lowerL name.toList
  let has := fun (p : String) => hasSub n p.toList
  if has "name" ∨ has "address" ∨ has "description" ∨ has "comment" ∨ has "note" then
    some "XdString"
  else if has "count" ∨ has "number" ∨ has "age" ∨ has "quantity" then
    some "XdCount"
  else if has "weight" ∨ has "height" ∨ has "temperature" ∨ has "pressure" ∨ has "dose" then
    some "XdQuantity"
  else if has "date" ∨ has "time" ∨ has "created" ∨ has "updated" ∨ has "birth" then
    some "XdTemporal"
  else if has "status" ∨ has "level" ∨ has "grade" ∨ has "severity" ∨ has "priority" then
    some "XdOrdinal"
  else if startsWithL n "is_".toList ∨ startsWithL n "has_".toList ∨
      has "enabled" ∨ has "active" ∨ has "flag" then
    some "XdBoolean"
  else if endsWithL n "_id".toList ∨ endsWithL n "_code".toList ∨
      endsWithL n "_key".toList ∨ has "identifier" then
    some "XdIdentifier"
  else if endsWithL n "_url".toList ∨ endsWithL n "_link".toList ∨
      has "website" ∨ has "homepage" then
    some "XdLink"
  else none

/-- One token of `^@([A-Za-z0-9_-]+):([A-Za-z0-9_-]+)$`. -/
def isRefTokenChar (c : Char) : Bool :=
  ('A' ≤ c ∧ c ≤ 'Z') ∨ ('a' ≤ c ∧ c ≤ 'z') ∨ ('0' ≤ c ∧ c ≤ '9') ∨ c = '_' ∨ c = '-'

/-- Full match of `^@([A-Za-z0-9_-]+):([A-Za-z0-9_-]+)$`: an `@`, a non-empty
token, one `:`, a non-empty token, end of string. -/
def refPatternOk (s : List Char) : Bool :=
  match s with
  | '@' :: rest =>
      let tok1 := rest.takeWhile isRefTokenChar
      match rest.drop tok1.length with
      | ':' :: tok2 =>
          !tok1.isEmpty ∧ !tok2.isEmpty ∧ tok2.all isRefTokenChar
      | _ => false
  | _ => false

/-- The `_validate_component_reference` method (E-SYN-003). -/
def validateComponentReference (st : St) (c : Component) (ref : String) : St :=
  if refPatternOk ref.toList then st
  else
    addError st "E-SYN-003" (match kwFind c "Type" with | some kv => kv.line | none => 0)
      ("Invalid component reference '" ++ ref ++
        "' - must follow @ProjectName:ComponentLabel format")
      "Use format '@ProjectName:ComponentLabel' with no spaces"
      (some c.name) (some "Type")

/-- The `_validate_numeric_range` helper: `float` both stripped values; on
success compare, on `ValueError` pass (already caught by E-SYN-002). -/
def validateNumericRange (p : Prims) (st : St) (c : Component)
    (minKw maxKw errorCode : String) : St :=
  match kwFind c minKw, kwFind c maxKw with
  | some kvMin, some kvMax =>
      let minValStr := pyStripS kvMin.value
      let maxValStr := pyStripS kvMax.value
      match p.floatParse minValStr with
      | none => st
      | some minVal =>
          match p.floatParse maxValStr with
          | none => st
          | some maxVal =>
              if p.fgt minVal maxVal then
                addError st errorCode kvMax.line
                  (minKw ++ " (" ++ minValStr ++ ") exceeds " ++ maxKw ++
                    " (" ++ maxValStr ++ ")")
                  ("Ensure " ++ minKw ++ " is less than or equal to " ++ maxKw)
                  (some c.name) (some maxKw)
              else st
  | _, _ => st

/-- The E-SYN-002 loop of `_validate_quantified_type`: each present,
non-empty keyword value must parse as a `float`. -/
def checkNumericKeywords (p : Prims) (st : St) (c : Component) : List String → St
  | [] => st
  | kw :: rest =>
      let st :=
        match kwFind c kw with
        | some kv =>
            let val := pyStripS kv.value
            if val ≠ "" ∧ (p.floatParse val).isNone then
              addError st "E-SYN-002" kv.line
                ("Invalid numeric value '" ++ val ++ "' for **" ++ kw ++ "**")
                ("Provide a valid number for **" ++ kw ++ "**")
                (some c.name) (some kw)
            else st
        | none => st
      checkNumericKeywords p st c rest

/-- The `_validate_quantified_type` method (XdCount, XdQuantity, XdFloat,
XdDouble). -/
def validateQuantifiedType (p : Prims) (st : St) (c : Component)
    (typeValue : String) : St :=
  match kwFind c "Units" with
  | none =>
      addError st "E-REQ-001" c.start_line
        (typeValue ++ " requires **Units** keyword")
        "Add '**Units**: <unit>' (e.g., kg, years, USD)"
        (some c.name)
  | some kvUnits =>
      let unitsValue := pyStripS kvUnits.value
      let st :=
        if unitsValue = "" then
          addError st "E-REQ-002" kvUnits.line
            "**Units** value cannot be empty"
            "Specify at least one unit (e.g., 'kg', 'years', 'USD')"
            (some c.name) (some "Units")
        else st
      let st :=
        if unitsValue ≠ "" ∧ ¬ hasSub unitsValue.toList ['('] then
          addWarning st "W-AMB-003" kvUnits.line
            "Units list lacks definitions - LLM may misinterpret symbols"
            "Add definitions: e.g., 'kg (kilograms), lb (pounds)'"
            (some c.name) (some "Units")
        else st
      let st := validateNumericRange p st c "Min Magnitude" "Max Magnitude" "E-BIZ-005"
      let st := checkNumericKeywords p st c
        ["Min Magnitude", "Max Magnitude", "Precision", "Fraction Digits"]
      if ¬ kwHas c "Min Magnitude" ∧ ¬ kwHas c "Max Magnitude" then
        addWarning st "W-BP-004" c.start_line
          "Consider specifying Min/Max Magnitude constraints for bounded data"
          "Add '**Min Magnitude**: <min>' and '**Max Magnitude**: <max>'"
          (some c.name)
      else st

/-- The `_validate_regex_pattern` method (E-BIZ-007); the oracle reports
`re.compile` failure as `some msg` with `msg` the rendering of the raised
`re.error`. -/
def validateRegexPattern (p : Prims) (st : St) (c : Component) : St :=
  match kwFind c "Pattern" with
  | some kvPat =>
      let patternVal := pyStripS kvPat.value
      if patternVal = "" then st
      else
        match p.regexCompileErr patternVal with
        | some msg =>
            addError st "E-BIZ-007" kvPat.line
              ("Invalid regex pattern: " ++ msg)
              "Fix the regular expression syntax"
              (some c.name) (some "Pattern")
        | none => st
  | none => st

/-- The E-SYN-002 loop of `_validate_string_type`: each present, non-empty
length value must parse as an `int`. -/
def checkIntKeywords (p : Prims) (st : St) (c : Component) : List String → St
  | [] => st
  | kw :: rest =>
      let st :=
        match kwFind c kw with
        | some kv =>
            let val := pyStripS kv.value
            if val ≠ "" ∧ ¬ p.intOk val then
              addError st "E-SYN-002" kv.line
                ("Invalid numeric value '" ++ val ++ "' for **" ++ kw ++ "**")
                ("Provide a valid integer for **" ++ kw ++ "**")
                (some c.name) (some kw)
            else st
        | none => st
      checkIntKeywords p st c rest

/-- The `_validate_string_type` method. -/
def validateStringType (p : Prims) (st : St) (c : Component) : St :=
  let hasPattern := kwHas c "Pattern"
  let hasEnum := kwHas c "Enumeration"
  let st :=
    if hasPattern ∧ hasEnum then
      addError st "E-BIZ-003"
        (match kwFind c "Enumeration" with | some kv => kv.line | none => 0)
        "XdString cannot have both **Pattern** and **Enumeration** - choose one"
        "Remove either Pattern (for free text) or Enumeration (for fixed choices)"
        (some c.name)
    else st
  let st := if hasPattern then validateRegexPattern p st c else st
  let st := validateNumericRange p st c "Min Length" "Max Length" "E-BIZ-004"
  let st := checkIntKeywords p st c ["Min Length", "Max Length"]
  let st :=
    if ¬ kwHas c "Max Length" ∧ ¬ hasEnum then
      addWarning st "W-BP-005" c.start_line
        "Consider specifying **Max Length** to prevent unbounded strings"
        "Add '**Max Length**: 255' (or appropriate limit)"
        (some c.name)
    else st
  if hasEnum ∧ ¬ hasPattern then
    addSuggestion st "S-OPT-004" c.start_line
      "Consider using XdToken instead of XdString for categorical data with fixed values"
      "Change '**Type**: XdString' to '**Type**: XdToken'"
      (some c.name)
  else st

/-- The `_validate_token_type` method. -/
def validateTokenType (st : St) (c : Component) : St :=
  if ¬ kwHas c "Enumeration" then
    addWarning st "W-BP-001" c.start_line
      "XdToken typically has an **Enumeration** of allowed values"
      "Add '**Enumeration**:' with the list of valid values"
      (some c.name)
  else st

/-- The `_validate_boolean_type` method. -/
def validateBooleanType (st : St) (c : Component) : St :=
  let st :=
    match kwFind c "Enumeration" with
    | some kv =>
        addError st "E-BIZ-001" kv.line
          "XdBoolean cannot have **Enumeration** keyword"
          "Remove **Enumeration** - XdBoolean only supports true/false values"
          (some c.name) (some "Enumeration")
    | none => st
  match kwFind c "Pattern" with
  | some kv =>
      addError st "E-BIZ-002" kv.line
        "XdBoolean cannot have **Pattern** keyword"
        "Remove **Pattern** - XdBoolean only supports true/false values"
        (some c.name) (some "Pattern")
  | none => st

/-- The `_validate_temporal_type` method (W-BP-006 and E-BIZ-006). -/
def validateTemporalType (p : Prims) (st : St) (c : Component) : St :=
  let st :=
    if ¬ kwHas c "Temporal Type" then
      addWarning st "W-BP-006" c.start_line
        "XdTemporal should specify **Temporal Type** (date, time, datetime, or duration)"
        "Add '**Temporal Type**: date' (or time, datetime, duration)"
        (some c.name)
    else st
  match kwFind c "Min Date", kwFind c "Max Date" with
  | some kvMin, some kvMax =>
      let minDateStr := pyStripS kvMin.value
      let maxDateStr := pyStripS kvMax.value
      match p.dateParse minDateStr with
      | none => st
      | some minDate =>
          match p.dateParse maxDateStr with
          | none => st
          | some maxDate =>
              if dateGtB minDate maxDate then
                addError st "E-BIZ-006" kvMax.line
                  ("Min Date (" ++ minDateStr ++ ") exceeds Max Date (" ++
                    maxDateStr ++ ")")
                  "Ensure Min Date is earlier than or equal to Max Date"
                  (some c.name) (some "Max Date")
              else st
  | _, _ => st

/-- Leading `^\d+\.` test of W-AMB-004. -/
def numberedListStart (s : List Char) : Bool :=
  let ds := s.takeWhile (fun c => '0' ≤ c ∧ c ≤ '9')
  !ds.isEmpty ∧ (s.drop ds.length).headD ' ' = '.'

/-- The `_validate_ordinal_type` method. -/
def validateOrdinalType (st : St) (c : Component) : St :=
  match kwFind c "Enumeration" with
  | none =>
      addError st "E-REQ-003" c.start_line
        "XdOrdinal requires **Enumeration** keyword with ordered values"
        "Add '**Enumeration**:' with an ordered list of values"
        (some c.name)
  | some kv =>
      let enumVal := pyStripS kv.value
      if enumVal ≠ "" ∧ ¬ numberedListStart enumVal.toList then
        addWarning st "W-AMB-004" kv.line
          "XdOrdinal enumeration should use numbered ordering for clarity"
          "Use numbered list format: '1. First, 2. Second, ...'"
          (some c.name) (some "Enumeration")
      else st

/-- The `_validate_cluster_type` method. -/
def validateClusterType (st : St) (c : Component) : St :=
  if ¬ kwHas c "Description" then
    addWarning st "W-BP-001" c.start_line
      "Missing **Description** keyword - LLM may misinterpret cluster purpose"
      ("Add '**Description**: <description of " ++ c.name ++ ">'")
      (some c.name)
  else st

/-- The `_validate_component` method. -/
def validateComponent (p : Prims) (st : St) (c : Component) : St :=
  if pyStripS c.name = "" then
    addError st "E-CMP-004" c.start_line
      "Component name must be non-empty"
      "Add a descriptive name to the component heading"
      (some c.name)
  else
    match kwFind c "Type" with
    | none =>
        let fix :=
          match suggestTypeFromName c.name with
          | some suggestion =>
              "Add '**Type**: <type>' as the first keyword (suggestion: " ++
                suggestion ++ ")"
          | none => "Add '**Type**: <type>' as the first keyword"
        addError st "E-CMP-001" c.start_line
          "Missing **Type** keyword" fix (some c.name)
    | some kvType =>
        let typeValue := pyStripS kvType.value
        if startsWithL typeValue.toList ['@'] then
          validateComponentReference st c typeValue
        else if ¬ VALID_TYPES.contains typeValue then
          addError st "E-CMP-002" kvType.line
            ("Invalid Type '" ++ typeValue ++ "' - must be one of: " ++ validTypesSorted)
            "Change to a valid SDC4 type"
            (some c.name) (some "Type")
        else
          let st :=
            if !c.keyword_order.isEmpty ∧ c.keyword_order.headD "" ≠ "Type" then
              addError st "E-CMP-003" c.start_line
                "**Type** must be the first keyword in component"
                "Move '**Type**' to be the first keyword after the component heading"
                (some c.name) (some "Type")
            else st
          let st :=
            if QUANTIFIED_TYPES.contains typeValue then
              validateQuantifiedType p st c typeValue
            else if typeValue = "XdString" then validateStringType p st c
            else if typeValue = "XdToken" then validateTokenType st c
            else if typeValue = "XdBoolean" then validateBooleanType st c
            else if typeValue = "XdTemporal" then validateTemporalType p st c
            else if typeValue = "XdOrdinal" then validateOrdinalType st c
            else if typeValue = "Cluster" then validateClusterType st c
            else st
          let st :=
            if ¬ kwHas c "Description" ∧ typeValue ≠ "Cluster" then
              addWarning st "W-BP-001" c.start_line
                "Missing **Description** keyword - LLM may misinterpret component purpose"
                ("Add '**Description**: <description of " ++ c.name ++ ">'")
                (some c.name)
            else st
          let st :=
            if (pyStripS c.name).length < 3 ∧ typeValue ≠ "Cluster" then
              addWarning st "W-BP-002" c.start_line
                ("Component name '" ++ c.name ++
                  "' is too short - use descriptive names (>3 characters)")
                "Use a more descriptive component name"
                (some c.name)
            else st
          if ¬ kwHas c "Examples" ∧
              typeValue ≠ "Cluster" ∧ typeValue ≠ "XdBoolean" ∧ typeValue ≠ "XdFile" then
            addWarning st "W-BP-003" c.start_line
              "Missing **Examples** keyword - examples improve LLM understanding"
              "Add '**Examples**: <2-3 sample values>'"
              (some c.name)
          else st

/-- The `_validate_root_cluster` method (E-DOC-007). -/
def validateRootCluster (st : St) (first : Component) : St :=
  match kwFind first "Type" with
  | none => st
  | some kvType =>
      let typeVal := pyStripS kvType.value
      if typeVal ≠ "Cluster" ∧ ¬ startsWithL typeVal.toList ['@'] then
        addError st "E-DOC-007" first.start_line
          "First component must be Type: Cluster (root cluster required)"
          "Change the first component's Type to 'Cluster' or add a root Cluster before it"
          (some first.name)
      else st

/-- The key under which `_validate_component_names` compares components:
`comp.name.strip().lower()`. -/
def nameKey (c : Component) : String :=
  (lowerL (pyStripL c.name.toList)).asString

/-- The E-CMP-005 issue for a duplicate component citing the line of the
first definition. -/
def cmp005Issue (c : Component) (firstLine : Nat) : ValidationIssue :=
  { code := "E-CMP-005", severity := "CRITICAL",
    message := "Duplicate component name '" ++ c.name ++
      "' (first defined at line " ++ natStr firstLine ++ ")",
    line := c.start_line, context := "",
    fix := "Give each component a unique name", component := some c.name }

/-- Lookup in the `seen` dict of `_validate_component_names`. -/
def seenFind (seen : List (String × Nat)) (k : String) : Option Nat :=
  (seen.find? (fun e => e.1 = k)).map (·.2)

/-- The loop of `_validate_component_names` with the `seen` dict explicit. -/
def validateComponentNamesGo (st : St) (seen : List (String × Nat)) :
    List Component → St
  | [] => st
  | c :: rest =>
      match seenFind seen (nameKey c) with
      | some firstLine =>
          validateComponentNamesGo
            (addError st "E-CMP-005" c.start_line
              ("Duplicate component name '" ++ c.name ++
                "' (first defined at line " ++ natStr firstLine ++ ")")
              "Give each component a unique name"
              (some c.name))
            seen rest
      | none =>
          validateComponentNamesGo st (seen ++ [(nameKey c, c.start_line)]) rest

/-- The `_validate_component_names` method (E-CMP-005). -/
def validateComponentNames (st : St) (components : List Component) : St :=
  validateComponentNamesGo st [] components

/-- Python `re.search("[a-z][A-Z]", n)`: some adjacent lower-upper pair. -/
def hasCamelPair : List Char → Bool
  | [] => false
  | [_] => false
  | a :: b :: rest =>
      ('a' ≤ a ∧ a ≤ 'z' ∧ 'A' ≤ b ∧ b ≤ 'Z') ∨ hasCamelPair (b :: rest)

/-- Per-component part of `_add_context_suggestions` (S-QL-001, S-OPT-001). -/
def contextSuggestionsGo (st : St) : List Component → St
  | [] => st
  | c :: rest =>
      match kwFind c "Type" with
      | none => contextSuggestionsGo st rest
      | some kvType =>
          let typeVal := pyStripS kvType.value
          let st :=
            if typeVal ≠ "Cluster" ∧ ¬ kwHas c "Semantic Links" then
              addSuggestion st "S-QL-001" c.start_line
                "Consider adding semantic links to improve RDF generation"
                "Add '**Semantic Links**: <ontology URI>'"
                (some c.name)
            else st
          let st :=
            if kwHas c "Pattern" ∧ ¬ kwHas c "Examples" then
              addSuggestion st "S-OPT-001" c.start_line
                "Consider adding **Examples** for complex patterns to improve LLM accuracy"
                "Add '**Examples**: <2-3 sample values matching the pattern>'"
                (some c.name)
            else st
          contextSuggestionsGo st rest

/-- The `_add_context_suggestions` method. -/
def addContextSuggestions (st : St) (components : List Component) : St :=
  let st := contextSuggestionsGo st components
  let names := components.map (·.name)
  let hasSnake := names.any (fun n => hasSub n.toList ['_'])
  let hasCamel := names.any (fun n => hasCamelPair n.toList)
  let hasSpaces := names.any (fun n => hasSub n.toList [' '])
  let styleCount :=
    (if hasSnake then 1 else 0) + (if hasCamel then 1 else 0) +
      (if hasSpaces then 1 else 0)
  if 1 < styleCount then
    match components with
    | c0 :: _ =>
        addSuggestion st "S-QL-004" c0.start_line
          "Inconsistent naming conventions detected - use consistent style for maintainability"
          "Choose one naming style: 'snake_case', 'camelCase', or 'Title Case'"
    | [] => st
  else st

/-- The `_build_result` method; `now` is the rendering of
`datetime.now(timezone.utc).isoformat()` at call time, and `nComponents`
is `len(self._components)`. -/
def buildResult (st : St) (nComponents : Nat) (now document : String) :
    ValidationResult :=
  { valid := st.errors.isEmpty,
    errors := st.errors,
    warnings := st.warnings,
    suggestions := st.suggestions,
    metadata :=
      { validator := "form2sdc-validator-python",
        version := "1.0.0",
        validation_time := now,
        document := document,
        total_components := nComponents,
        critical_count := st.errors.length,
        warning_count := st.warnings.length,
        suggestion_count := st.suggestions.length } }

/-- The body of `validate` up to (but excluding) `_build_result`: the final
issue buffers and the final `self._components` list; every `return` in the
Python method is a `return self._build_result(document)`. -/
def validateSt (p : Prims) (markdownContent : String) : St × List Component :=
  let st : St := {}
  match extractYamlAndBody markdownContent with
  | (none, _, _) =>
      (addError st "E-DOC-001" 1 "Missing YAML front matter"
        "Add YAML front matter between '---' delimiters at the start of the document",
       [])
  | (some yamlBlock, markdownBody, yamlEndLine) =>
      match parseYaml p st yamlBlock with
      | (st, none) => (st, [])
      | (st, some frontMatter) =>
          let st := validateFrontMatter st frontMatter
          if !st.errors.isEmpty then (st, [])
          else if pyStripS markdownBody = "" then
            (addError st "E-DOC-006" (yamlEndLine + 1)
              "No content found after YAML front matter"
              "Add markdown content with at least one Cluster component after the front matter",
             [])
          else
            match parseComponents st yamlEndLine markdownBody with
            | (st, []) =>
                (addError st "E-DOC-006" (yamlEndLine + 1)
                  "No components found in markdown body"
                  "Add at least one component with a heading and **Type** keyword",
                 [])
            | (st, c0 :: comps) =>
                let components := c0 :: comps
                let st := components.foldl (validateComponent p) st
                let st := validateRootCluster st c0
                let st := validateComponentNames st components
                let st := addContextSuggestions st components
                (st, components)

/-- The `validate` method of `Form2SDCValidator`. -/
def validate (p : Prims) (now markdownContent document : String) :
    ValidationResult :=
  buildResult (validateSt p markdownContent).1
    (validateSt p markdownContent).2.length now document

/-! Issue values as the source constructs them, spelled out for use in
theorem statements. -/

/-- The issue `_add_error("E-DOC-001", 1, ...)` appends. -/
def doc001Issue : ValidationIssue :=
  { code := "E-DOC-001", severity := "CRITICAL", message := "Missing YAML front matter",
    line := 1, context := "",
    fix := "Add YAML front matter between '---' delimiters at the start of the document" }

/-- The E-DOC-002 issue for a raised YAML syntax error reported at `line`. -/
def doc002SyntaxIssue (line : Nat) (msg : String) : ValidationIssue :=
  { code := "E-DOC-002", severity := "CRITICAL",
    message := "Invalid YAML syntax: " ++ msg, line := line, context := "",
    fix := "Fix YAML syntax errors (check quotes, indentation, colons)" }

/-- The E-DOC-002 issue for front matter that is not a mapping. -/
def doc002MappingIssue : ValidationIssue :=
  { code := "E-DOC-002", severity := "CRITICAL",
    message := "YAML front matter must be a mapping (key: value pairs)", line := 2,
    context := "",
    fix := "Ensure front matter contains key-value pairs like 'project_name: \"My Project\"'" }

/-- The E-DOC-003 issue for a missing project name. -/
def doc003Issue : ValidationIssue :=
  { code := "E-DOC-003", severity := "CRITICAL",
    message := "Missing required field 'project_name' in YAML front matter",
    line := 2, context := "",
    fix := "Add 'project_name: \"Your Project Name\"' to front matter" }

/-- The E-CMP-001 issue for a component without a `Type` keyword. -/
def cmp001Issue (c : Component) : ValidationIssue :=
  { code := "E-CMP-001", severity := "CRITICAL", message := "Missing **Type** keyword",
    line := c.start_line, context := "",
    fix :=
      match suggestTypeFromName c.name with
      | some suggestion =>
          "Add '**Type**: <type>' as the first keyword (suggestion: " ++ suggestion ++ ")"
      | none => "Add '**Type**: <type>' as the first keyword",
    component := some c.name }

/-- The E-REQ-001 issue for a quantified component without `Units`. -/
def req001Issue (c : Component) (typeValue : String) : ValidationIssue :=
  { code := "E-REQ-001", severity := "CRITICAL",
    message := typeValue ++ " requires **Units** keyword", line := c.start_line,
    context := "", fix := "Add '**Units**: <unit>' (e.g., kg, years, USD)",
    component := some c.name }

/-- The E-BIZ-006 issue: min date exceeds max date, reported at the
`Max Date` line. -/
def biz006Issue (c : Component) (minDateStr maxDateStr : String) (line : Nat) :
    ValidationIssue :=
  { code := "E-BIZ-006", severity := "CRITICAL",
    message := "Min Date (" ++ minDateStr ++ ") exceeds Max Date (" ++ maxDateStr ++ ")",
    line := line, context := "",
    fix := "Ensure Min Date is earlier than or equal to Max Date",
    component := some c.name, keyword := some "Max Date" }

/-- The W-BP-002 short-name warning. -/
def bp002Issue (c : Component) : ValidationIssue :=
  { code := "W-BP-002", severity := "WARNING",
    message := "Component name '" ++ c.name ++
      "' is too short - use descriptive names (>3 characters)",
    line := c.start_line, context := "",
    fix := "Use a more descriptive component name", component := some c.name }

/-- Line of the first definition of key `k` among `l`
(`seen[name_lower]` in `_validate_component_names`). -/
def firstDefLine (l : List Component) (k : String) : Option Nat :=
  (l.find? (fun c0 => nameKey c0 = k)).map (·.start_line)

/-- Prefix-recursive form of the expected E-CMP-005 issues: a component
whose key already occurs in the preceding prefix yields the issue citing the
first definition's line; a first occurrence yields nothing. -/
def cmp005ExpectedGo (pre : List Component) : List Component → List ValidationIssue
  | [] => []
  | c :: rest =>
      match firstDefLine pre (nameKey c) with
      | some firstLine => cmp005Issue c firstLine :: cmp005ExpectedGo (pre ++ [c]) rest
      | none => cmp005ExpectedGo (pre ++ [c]) rest

/-! Concrete instantiation of the oracles, used by witnesses and
counterexamples.  Each table entry records the behaviour of the real Python
primitive on that input:
  - `yaml.safe_load("project_name: P\nsource_language: E\ntemplate_version: V")`
    returns the dict `{"project_name": "P", "source_language": "E",
    "template_version": "V"}`;
  - `yaml.safe_load("\t")` raises a `ScannerError` whose `problem_mark.line`
    is `0` (a tab cannot start a token on the first block line);
  - `date.fromisoformat` accepts `YYYY-MM-DD` and rejects anything that is
    not a valid ISO date. -/

/-- YAML front-matter block used by concrete documents. -/
def blockA : String := "project_name: P\nsource_language: E\ntemplate_version: V"

/-- The mapping `yaml.safe_load` returns for `blockA`. -/
def blockADict : List (String × YVal) :=
  [("project_name", .str "P"), ("source_language", .str "E"),
   ("template_version", .str "V")]

/-- Concrete oracle table agreeing with the Python primitives on every input
that the concrete witness documents reach. -/
def P0 : Prims where
  Fl := Int
  yamlLoad := fun s =>
    if s = blockA then .ok (.dict blockADict)
    else if s = "\t" then .raised (some 0) "found character that cannot start any token"
    else .raised none "unreached"
  floatParse := fun _ => none
  fgt := fun _ _ => false
  intOk := fun _ => false
  dateParse := fun s =>
    if s = "2025-06-15" then some { year := 2025, month := 6, day := 15 }
    else if s = "2020-01-01" then some { year := 2020, month := 1, day := 1 }
    else none
  regexCompileErr := fun _ => none

/-- A document whose front matter is `blockA`. -/
def docWith (body : String) : String :=
  "---\nproject_name: P\nsource_language: E\ntemplate_version: V\n---\n" ++ body

/-- Concrete document for the C6 counterexample: the component `Age` has a
3-character name, a valid inline type, and reaches the hygiene checks. -/
def docAge : String := docWith "### Age\n\n**Type**: XdString"

/-- Concrete document for the C10 counterexample: its only component is the
bold-only line `** **`, parsed with the empty (stripped) name and no
keywords at all. -/
def docEmptyName : String := docWith "** **"

/-- Concrete document whose YAML block is the single tab line. -/
def docTab : String := "---\n\t\n---\nbody"

/-- Concrete quantified component with no `Units` keyword but with
`Min Magnitude` greater than `Max Magnitude`. -/
def compScore : Component :=
  { name := "Score", start_line := 10,
    keywords := [("Type", { value := "XdCount", line := 11 }),
                 ("Min Magnitude", { value := "100", line := 12 }),
                 ("Max Magnitude", { value := "50", line := 13 })],
    keyword_order := ["Type", "Min Magnitude", "Max Magnitude"] }

/-- Concrete temporal component with `Min Date` after `Max Date`. -/
def compWhen : Component :=
  { name := "When", start_line := 20,
    keywords := [("Type", { value := "XdTemporal", line := 21 }),
                 ("Min Date", { value := "2025-06-15", line := 22 }),
                 ("Max Date", { value := "2020-01-01", line := 23 })],
    keyword_order := ["Type", "Min Date", "Max Date"] }

/-- Concrete short-named string component (2 characters). -/
def compID : Component :=
  { name := "ID", start_line := 30,
    keywords := [("Type", { value := "XdString", line := 31 })],
    keyword_order := ["Type"] }

/-- Concrete component with a non-empty name and no `Type` keyword. -/
def compNoType : Component :=
  { name := "Patient", start_line := 40 }

/-! Shared facts about the issue-buffer helpers. -/

theorem errors_addWarning (st : St) (code : String) (line : Nat) (message fix : String)
    (component keyword : Option String) :
    (addWarning st code line message fix component keyword).errors = st.errors := rfl

theorem errors_addSuggestion (st : St) (code : String) (line : Nat) (message fix : String)
    (component keyword : Option String) :
    (addSuggestion st code line message fix component keyword).errors = st.errors := rfl

theorem warnings_addError (st : St) (code : String) (line : Nat) (message fix : String)
    (component keyword : Option String) :
    (addError st code line message fix component keyword).warnings = st.warnings := rfl

theorem warnings_addSuggestion (st : St) (code : String) (line : Nat) (message fix : String)
    (component keyword : Option String) :
    (addSuggestion st code line message fix component keyword).warnings = st.warnings := rfl

theorem mem_errors_addError (st : St) (i : ValidationIssue) (code : String) (line : Nat)
    (message fix : String) (component keyword : Option String)
    (h : i ∈ st.errors) :
    i ∈ (addError st code line message fix component keyword).errors := by
  simp only [addError, List.mem_append]
  exact Or.inl h

theorem errors_addError (st : St) (code : String) (line : Nat) (message fix : String)
    (component keyword : Option String) :
    (addError st code line message fix component keyword).errors =
      st.errors ++
        [{ code := code, severity := "CRITICAL", message := message, line := line,
           context := "", fix := fix, component := component, keyword := keyword }] := rfl

theorem errors_ite_addWarning (st : St) (cond : Prop) [Decidable cond] (code : String)
    (line : Nat) (message fix : String) (component keyword : Option String) :
    (if cond then addWarning st code line message fix component keyword else st).errors =
      st.errors := by
  split <;> rfl

/-- C1: for every oracle instantiation, timestamp and input document, the
result's `valid` flag is `true` exactly when its `errors` list is empty; in
particular a run producing only warnings and suggestions is valid. -/
theorem valid_flag_eq_errors_isEmpty (p : Prims) (now content document : String) :
    (validate p now content document).valid =
      (validate p now content document).errors.isEmpty := rfl

/-- C2 (amended): two runs on the same text agree on the `valid` flag, on
all three issue lists, and on every metadata field except
`validation_time`, which records each call's own wall-clock timestamp. -/
theorem two_runs_agree_except_validation_time
    (p : Prims) (now₁ now₂ content document : String) :
    (validate p now₁ content document).valid = (validate p now₂ content document).valid ∧
    (validate p now₁ content document).errors = (validate p now₂ content document).errors ∧
    (validate p now₁ content document).warnings =
      (validate p now₂ content document).warnings ∧
    (validate p now₁ content document).suggestions =
      (validate p now₂ content document).suggestions ∧
    (validate p now₁ content document).metadata =
      { (validate p now₂ content document).metadata with
          validation_time := (validate p now₁ content document).metadata.validation_time } :=
  ⟨rfl, rfl, rfl, rfl, rfl⟩

/-- C2 (counterexample): the claim "calling validate twice on the same text
yields an identical ValidationResult" is false as stated, because
`_build_result` stores `datetime.now(timezone.utc).isoformat()` in the
metadata: two calls at different instants differ in `validation_time`. -/
theorem two_runs_not_identical :
    validate P0 "2026-10-12T10:00:00+00:00" "x" "form.md" ≠
      validate P0 "2026-10-12T10:00:01+00:00" "x" "form.md" := by decide

/-- C9: a quantified component without a `Units` keyword gets exactly the
single E-REQ-001 error from `_validate_quantified_type`; the range check
(E-BIZ-005), the numeric-syntax check (E-SYN-002), the units-ambiguity
warning (W-AMB-003) and the missing-bounds warning (W-BP-004) are all
skipped, whatever the other keywords hold. -/
theorem quantified_missing_units_only_req001 (p : Prims) (st : St) (c : Component)
    (typeValue : String) (h : kwFind c "Units" = none) :
    validateQuantifiedType p st c typeValue =
      { st with errors := st.errors ++ [req001Issue c typeValue] } := by
  unfold validateQuantifiedType
  rw [h]
  rfl

/-- Witness for C9: `compScore` declares `Min Magnitude: 100` above
`Max Magnitude: 50` yet yields only the E-REQ-001 error. -/
theorem quantified_missing_units_only_req001_witness :
    kwFind compScore "Units" = none ∧
    validateQuantifiedType P0 {} compScore "XdCount" =
      { ({} : St) with errors := ({} : St).errors ++ [req001Issue compScore "XdCount"] } :=
  ⟨by decide, quantified_missing_units_only_req001 P0 {} compScore "XdCount" (by decide)⟩

/-- C8: for a temporal component carrying both `Min Date` and `Max Date`:
when both stripped values parse as ISO dates, `_validate_temporal_type`
adds the critical E-BIZ-006 error exactly when the min date is strictly
greater than the max date; when either value fails to parse, the rule adds
no error at all. -/
theorem temporal_min_max_date (p : Prims) (st : St) (c : Component)
    (kvMin kvMax : KeywordValue)
    (hmin : kwFind c "Min Date" = some kvMin)
    (hmax : kwFind c "Max Date" = some kvMax) :
    (∀ dmin dmax, p.dateParse (pyStripS kvMin.value) = some dmin →
        p.dateParse (pyStripS kvMax.value) = some dmax →
        (validateTemporalType p st c).errors =
          st.errors ++
            (if dateGtB dmin dmax then
              [biz006Issue c (pyStripS kvMin.value) (pyStripS kvMax.value) kvMax.line]
            else [])) ∧
    (p.dateParse (pyStripS kvMin.value) = none ∨
        p.dateParse (pyStripS kvMax.value) = none →
      (validateTemporalType p st c).errors = st.errors) := by
  unfold validateTemporalType
  rw [hmin, hmax]
  dsimp only
  constructor
  · intro dmin dmax h1 h2
    rw [h1, h2]
    dsimp only
    split
    · simp [errors_addError, errors_ite_addWarning, biz006Issue]
    · simp [errors_ite_addWarning]
  · intro h
    rcases h with h | h
    · rw [h]
      exact errors_ite_addWarning ..
    · rcases h3 : p.dateParse (pyStripS kvMin.value) with _ | dmin
      · exact errors_ite_addWarning ..
      · dsimp only
        rw [h]
        exact errors_ite_addWarning ..

/-- Witness for C8: `compWhen` has `Min Date: 2025-06-15` and
`Max Date: 2020-01-01`; both parse, min exceeds max, and E-BIZ-006 is the
exact error delta. -/
theorem temporal_min_max_date_witness :
    kwFind compWhen "Min Date" = some { value := "2025-06-15", line := 22 } ∧
    kwFind compWhen "Max Date" = some { value := "2020-01-01", line := 23 } ∧
    P0.dateParse "2025-06-15" = some { year := 2025, month := 6, day := 15 } ∧
    (validateTemporalType P0 {} compWhen).errors =
      ({} : St).errors ++
        (if dateGtB { year := 2025, month := 6, day := 15 }
            { year := 2020, month := 1, day := 1 } then
          [biz006Issue compWhen "2025-06-15" "2020-01-01" 23]
        else []) := by
  refine ⟨by decide, by decide, by decide, ?_⟩
  exact (temporal_min_max_date P0 {} compWhen
      { value := "2025-06-15", line := 22 } { value := "2020-01-01", line := 23 }
      (by decide) (by decide)).1
    { year := 2025, month := 6, day := 15 } { year := 2020, month := 1, day := 1 }
    (by decide) (by decide)

theorem findClose_eq_none (ls : List (List Char))
    (h : ∀ l ∈ ls, pyStripL l ≠ dashes) : ∀ k, findClose k ls = none := by
  induction ls with
  | nil => intro k; rfl
  | cons a tl ih =>
      intro k
      unfold findClose
      rw [if_neg (h a (List.mem_cons_self a tl))]
      exact ih (fun l hl => h l (List.mem_cons_of_mem a hl)) (k + 1)

/-- When the first line (after BOM stripping) is not `---`, or no later line
strips to `---`, extraction fails with no block. -/
theorem extract_none_of (content : String)
    (h : pyStripL ((splitNL (dropBOM content.toList)).headD []) ≠ dashes ∨
         ∀ l ∈ (splitNL (dropBOM content.toList)).drop 1, pyStripL l ≠ dashes) :
    extractYamlAndBody content = (none, (dropBOM content.toList).asString, 0) := by
  unfold extractYamlAndBody
  dsimp only
  rcases h with h | h
  · rw [if_pos h]
  · by_cases h0 : pyStripL ((splitNL (dropBOM content.toList)).headD []) ≠ dashes
    · rw [if_pos h0]
    · rw [if_neg h0, findClose_eq_none _ h 1]

/-- C4: when the first line after BOM stripping does not strip to `---`, or
no later line strips to `---`, the run returns exactly one error, the
E-DOC-001 issue (the `DOC-001` code carried with the critical `E-` prefix),
`valid = false`, no warnings or suggestions (no metadata rule fires, no
component is parsed), and `total_components = 0`. -/
theorem missing_front_matter_doc001 (p : Prims) (now content document : String)
    (h : pyStripL ((splitNL (dropBOM content.toList)).headD []) ≠ dashes ∨
         ∀ l ∈ (splitNL (dropBOM content.toList)).drop 1, pyStripL l ≠ dashes) :
    (validate p now content document).errors = [doc001Issue] ∧
    doc001Issue.code = "E-DOC-001" ∧
    (validate p now content document).valid = false ∧
    (validate p now content document).warnings = [] ∧
    (validate p now content document).suggestions = [] ∧
    (validate p now content document).metadata.total_components = 0 := by
  have hx := extract_none_of content h
  simp only [validate, validateSt, hx]
  exact ⟨rfl, rfl, rfl, rfl, rfl, rfl⟩

/-- Witness for C4: the document `"x"` has no leading `---` line. -/
theorem missing_front_matter_doc001_witness :
    (pyStripL ((splitNL (dropBOM ("x".toList))).headD []) ≠ dashes ∨
      ∀ l ∈ (splitNL (dropBOM ("x".toList))).drop 1, pyStripL l ≠ dashes) ∧
    (validate P0 "2026-10-12T10:00:00+00:00" "x" "form.md").errors = [doc001Issue] ∧
    doc001Issue.code = "E-DOC-001" ∧
    (validate P0 "2026-10-12T10:00:00+00:00" "x" "form.md").valid = false ∧
    (validate P0 "2026-10-12T10:00:00+00:00" "x" "form.md").warnings = [] ∧
    (validate P0 "2026-10-12T10:00:00+00:00" "x" "form.md").suggestions = [] ∧
    (validate P0 "2026-10-12T10:00:00+00:00" "x" "form.md").metadata.total_components = 0 :=
  ⟨Or.inl (by decide),
   missing_front_matter_doc001 P0 "2026-10-12T10:00:00+00:00" "x" "form.md"
     (Or.inl (by decide))⟩

/-- C5: if the front-matter block is extracted and the YAML parse raises a
syntax error, the run reports critical E-DOC-002, at line
`problem_mark.line + 2` when a mark is present (the offending 0-based line
within the block translated into full-document numbering) and at line 2
otherwise; if the parse succeeds but the value is not a mapping, the run
reports the critical E-DOC-002 mapping error at line 2. -/
theorem yaml_failure_doc002 (p : Prims) (now content document blk body : String)
    (k : Nat) (h : extractYamlAndBody content = (some blk, body, k)) :
    (∀ l msg, p.yamlLoad blk = .raised (some l) msg →
        (validate p now content document).errors = [doc002SyntaxIssue (l + 2) msg]) ∧
    (∀ msg, p.yamlLoad blk = .raised none msg →
        (validate p now content document).errors = [doc002SyntaxIssue 2 msg]) ∧
    (∀ v, p.yamlLoad blk = .ok v → v.isDictB = false →
        (validate p now content document).errors = [doc002MappingIssue]) := by
  refine ⟨?_, ?_, ?_⟩
  · intro l msg hy
    simp only [validate, validateSt, h, parseYaml, hy]
    rfl
  · intro msg hy
    simp only [validate, validateSt, h, parseYaml, hy]
    rfl
  · intro v hy hv
    cases v with
    | dict d => simp [YVal.isDictB] at hv
    | str s =>
        simp only [validate, validateSt, h, parseYaml, hy]
        rfl
    | other b =>
        simp only [validate, validateSt, h, parseYaml, hy]
        rfl

/-- Witness for C5: the block of `docTab` is a single tab, on which the
YAML oracle raises with `problem_mark.line = 0`; the reported line is 2. -/
theorem yaml_failure_doc002_witness :
    extractYamlAndBody docTab = (some "\t", "body", 3) ∧
    P0.yamlLoad "\t" =
      .raised (some 0) "found character that cannot start any token" ∧
    (validate P0 "2026-10-12T10:00:00+00:00" docTab "t.md").errors =
      [doc002SyntaxIssue (0 + 2) "found character that cannot start any token"] :=
  ⟨by decide, rfl,
   (yaml_failure_doc002 P0 "2026-10-12T10:00:00+00:00" docTab "t.md" "\t" "body" 3
       (by decide)).1 0 "found character that cannot start any token" rfl⟩

theorem mem_errors_ite_addError (st : St) (i : ValidationIssue) (cond : Prop)
    [Decidable cond] (code : String) (line : Nat) (message fix : String)
    (component keyword : Option String) (h : i ∈ st.errors) :
    i ∈ (if cond then addError st code line message fix component keyword
         else st).errors := by
  split
  · exact mem_errors_addError st i code line message fix component keyword h
  · exact h

theorem mem_errors_ite_addSuggestion (st : St) (i : ValidationIssue) (cond : Prop)
    [Decidable cond] (code : String) (line : Nat) (message fix : String)
    (component keyword : Option String) (h : i ∈ st.errors) :
    i ∈ (if cond then addSuggestion st code line message fix component keyword
         else st).errors := by
  split
  · exact h
  · exact h

/-- Missing project name yields an E-DOC-003 issue from the front-matter
phase, whatever else the mapping holds. -/
theorem doc003_mem_validateFrontMatter (st : St) (fm : List (String × YVal))
    (h : optTruthy (normalizeFrontMatter fm).project_name = false) :
    doc003Issue ∈ (validateFrontMatter st fm).errors := by
  unfold validateFrontMatter
  dsimp only
  rw [h]
  simp only [Bool.false_eq_true, not_false_eq_true, if_true]
  apply mem_errors_ite_addSuggestion
  apply mem_errors_ite_addSuggestion
  apply mem_errors_ite_addError
  apply mem_errors_ite_addError
  simp [addError, doc003Issue]

/-- C3: every anomaly of malformed input is reported as an Issue in the
returned result rather than raised: a missing or unterminated front-matter
block yields an E-DOC-001 issue; a YAML parse that raises yields an
E-DOC-002 issue (the exception is caught); a non-mapping parse yields an
E-DOC-002 issue; a mapping without a (truthy) project name yields an
E-DOC-003 issue.  `validate` is total over every oracle behaviour. -/
theorem anomalies_become_issues (p : Prims) (now content document : String) :
    ((extractYamlAndBody content).1 = none →
      ∃ i ∈ (validate p now content document).errors, i.code = "E-DOC-001") ∧
    (∀ blk body k mark msg, extractYamlAndBody content = (some blk, body, k) →
      p.yamlLoad blk = .raised mark msg →
      ∃ i ∈ (validate p now content document).errors, i.code = "E-DOC-002") ∧
    (∀ blk body k v, extractYamlAndBody content = (some blk, body, k) →
      p.yamlLoad blk = .ok v → v.isDictB = false →
      ∃ i ∈ (validate p now content document).errors, i.code = "E-DOC-002") ∧
    (∀ blk body k d, extractYamlAndBody content = (some blk, body, k) →
      p.yamlLoad blk = .ok (.dict d) →
      optTruthy (normalizeFrontMatter d).project_name = false →
      ∃ i ∈ (validate p now content document).errors, i.code = "E-DOC-003") := by
  refine ⟨?_, ?_, ?_, ?_⟩
  · intro h
    rcases hx : extractYamlAndBody content with ⟨ob, bd, kk⟩
    rw [hx] at h
    cases ob with
    | some b => exact absurd h (by simp)
    | none =>
        simp only [validate, validateSt, hx]
        exact ⟨doc001Issue, by simp [buildResult, addError, doc001Issue], rfl⟩
  · intro blk body k mark msg hx hy
    cases mark with
    | none =>
        simp only [validate, validateSt, hx, parseYaml, hy]
        exact ⟨doc002SyntaxIssue 2 msg, by simp [buildResult, addError, doc002SyntaxIssue], rfl⟩
    | some l =>
        simp only [validate, validateSt, hx, parseYaml, hy]
        exact ⟨doc002SyntaxIssue (l + 2) msg,
          by simp [buildResult, addError, doc002SyntaxIssue], rfl⟩
  · intro blk body k v hx hy hv
    cases v with
    | dict d => simp [YVal.isDictB] at hv
    | str s =>
        simp only [validate, validateSt, hx, parseYaml, hy]
        exact ⟨doc002MappingIssue, by simp [buildResult, addError, doc002MappingIssue], rfl⟩
    | other b =>
        simp only [validate, validateSt, hx, parseYaml, hy]
        exact ⟨doc002MappingIssue, by simp [buildResult, addError, doc002MappingIssue], rfl⟩
  · intro blk body k d hx hy h
    have hmem := doc003_mem_validateFrontMatter {} d h
    have hne : (validateFrontMatter {} d).errors.isEmpty = false := by
      rcases he : (validateFrontMatter {} d).errors with _ | ⟨a, tl⟩
      · rw [he] at hmem; simp at hmem
      · rfl
    simp only [validate, validateSt, hx, parseYaml, hy, hne]
    exact ⟨doc003Issue, hmem, rfl⟩

/-- Witness for C3: the document `"y"` has no front-matter block and its
anomaly is the E-DOC-001 issue in the returned result. -/
theorem anomalies_become_issues_witness :
    (extractYamlAndBody "y").1 = none ∧
    ∃ i ∈ (validate P0 "2026-10-12T10:00:00+00:00" "y" "").errors,
      i.code = "E-DOC-001" :=
  ⟨by decide,
   (anomalies_become_issues P0 "2026-10-12T10:00:00+00:00" "y" "").1 (by decide)⟩

/-- C10 (amended): when the first parsed component has no `Type` keyword at
all, `_validate_root_cluster` changes nothing (no E-DOC-007 is emitted);
E-DOC-007 can fire only when the `Type` value is present, its stripped
value is not `Cluster`, and it does not begin with `@`; and a component
with a non-empty stripped name and no `Type` keyword is reported by
`_validate_component` exactly through the single E-CMP-001 error (a
component whose stripped name is empty is reported through E-CMP-004
instead, not E-CMP-001). -/
theorem root_cluster_doc007_gating (p : Prims) (st : St) (first c : Component) :
    (kwFind first "Type" = none → validateRootCluster st first = st) ∧
    (validateRootCluster st first ≠ st →
      ∃ kv, kwFind first "Type" = some kv ∧ pyStripS kv.value ≠ "Cluster" ∧
        startsWithL (pyStripS kv.value).toList ['@'] = false) ∧
    (pyStripS c.name ≠ "" → kwFind c "Type" = none →
      validateComponent p st c = { st with errors := st.errors ++ [cmp001Issue c] }) := by
  refine ⟨?_, ?_, ?_⟩
  · intro h
    unfold validateRootCluster
    rw [h]
  · intro hne
    unfold validateRootCluster at hne
    rcases hk : kwFind first "Type" with _ | kv
    · rw [hk] at hne
      exact absurd rfl hne
    · rw [hk] at hne
      dsimp only at hne
      by_cases hc : pyStripS kv.value ≠ "Cluster" ∧
          ¬ startsWithL (pyStripS kv.value).toList ['@'] = true
      · exact ⟨kv, rfl, hc.1, by simpa using hc.2⟩
      · rw [if_neg hc] at hne
        exact absurd rfl hne
  · intro h1 h2
    unfold validateComponent
    rw [if_neg h1, h2]
    rfl

/-- C10 (counterexample): in `docEmptyName` the first (and only) parsed
component has no `Type` keyword, yet it is reported via E-CMP-004 (its
stripped name is empty), not via E-CMP-001, so "the first component is
reported only via CMP-001" fails as stated; no E-DOC-007 is emitted. -/
theorem root_cluster_no_type_not_cmp001 :
    (validateSt P0 docEmptyName).2.map (fun c => (c.name, kwHas c "Type")) =
      [("", false)] ∧
    (validate P0 "2026-10-12T10:00:00+00:00" docEmptyName "d.md").errors.map (·.code) =
      ["E-CMP-004"] := by decide

/-- Witness for C10: applying the amended theorem's CMP-001 clause to the
concrete component `compNoType`. -/
theorem root_cluster_doc007_gating_witness :
    pyStripS compNoType.name ≠ "" ∧ kwFind compNoType "Type" = none ∧
    validateComponent P0 {} compNoType =
      { ({} : St) with errors := ({} : St).errors ++ [cmp001Issue compNoType] } :=
  ⟨by decide, by decide,
   (root_cluster_doc007_gating P0 {} compNoType compNoType).2.2 (by decide) (by decide)⟩

/-! Facts used for the short-name (W-BP-002) analysis: no other rule in
`_validate_component` appends a `W-BP-002` warning. -/

theorem warnings_validateNumericRange (p : Prims) (st : St) (c : Component)
    (minKw maxKw errorCode : String) :
    (validateNumericRange p st c minKw maxKw errorCode).warnings = st.warnings := by
  unfold validateNumericRange
  split
  · dsimp only
    split
    · rfl
    · split
      · rfl
      · split <;> rfl
  · rfl

theorem warnings_checkNumericKeywords (p : Prims) (c : Component) :
    ∀ (ks : List String) (st : St),
      (checkNumericKeywords p st c ks).warnings = st.warnings := by
  intro ks
  induction ks with
  | nil => intro st; rfl
  | cons kw rest ih =>
      intro st
      unfold checkNumericKeywords
      dsimp only
      rw [ih]
      repeat' split
      all_goals rfl

theorem warnings_checkIntKeywords (p : Prims) (c : Component) :
    ∀ (ks : List String) (st : St),
      (checkIntKeywords p st c ks).warnings = st.warnings := by
  intro ks
  induction ks with
  | nil => intro st; rfl
  | cons kw rest ih =>
      intro st
      unfold checkIntKeywords
      dsimp only
      rw [ih]
      repeat' split
      all_goals rfl

theorem warnings_validateRegexPattern (p : Prims) (st : St) (c : Component) :
    (validateRegexPattern p st c).warnings = st.warnings := by
  unfold validateRegexPattern
  split
  · dsimp only
    split
    · rfl
    · split <;> rfl
  · rfl

theorem warnings_validateBooleanType (st : St) (c : Component) :
    (validateBooleanType st c).warnings = st.warnings := by
  unfold validateBooleanType
  repeat' split
  all_goals rfl

theorem filterBP002_addWarning_ne (st : St) (code : String) (line : Nat)
    (message fix : String) (component keyword : Option String)
    (h : code ≠ "W-BP-002") :
    (addWarning st code line message fix component keyword).warnings.filter
        (fun i => i.code = "W-BP-002") =
      st.warnings.filter (fun i => i.code = "W-BP-002") := by
  simp [addWarning, List.filter_append, h]

theorem filterBP002_ite_addWarning_ne (st : St) (cond : Prop) [Decidable cond]
    (code : String) (line : Nat) (message fix : String)
    (component keyword : Option String) (h : code ≠ "W-BP-002") :
    (if cond then addWarning st code line message fix component keyword
     else st).warnings.filter (fun i => i.code = "W-BP-002") =
      st.warnings.filter (fun i => i.code = "W-BP-002") := by
  split
  · exact filterBP002_addWarning_ne st code line message fix component keyword h
  · rfl

theorem filterBP002_validateQuantifiedType (p : Prims) (st : St) (c : Component)
    (tv : String) :
    (validateQuantifiedType p st c tv).warnings.filter (fun i => i.code = "W-BP-002") =
      st.warnings.filter (fun i => i.code = "W-BP-002") := by
  unfold validateQuantifiedType
  split
  · rfl
  · dsimp only
    rw [filterBP002_ite_addWarning_ne _ _ _ _ _ _ _ _ (by decide),
      warnings_checkNumericKeywords, warnings_validateNumericRange,
      filterBP002_ite_addWarning_ne _ _ _ _ _ _ _ _ (by decide)]
    split
    · rfl
    · rfl

theorem filterBP002_validateStringType (p : Prims) (st : St) (c : Component) :
    (validateStringType p st c).warnings.filter (fun i => i.code = "W-BP-002") =
      st.warnings.filter (fun i => i.code = "W-BP-002") := by
  unfold validateStringType
  dsimp only
  split
  · rw [warnings_addSuggestion,
      filterBP002_ite_addWarning_ne _ _ _ _ _ _ _ _ (by decide),
      warnings_checkIntKeywords, warnings_validateNumericRange]
    split
    · rw [warnings_validateRegexPattern]
      split
      · rw [warnings_addError]
      · rfl
    · split
      · rw [warnings_addError]
      · rfl
  · rw [filterBP002_ite_addWarning_ne _ _ _ _ _ _ _ _ (by decide),
      warnings_checkIntKeywords, warnings_validateNumericRange]
    split
    · rw [warnings_validateRegexPattern]
      split
      · rw [warnings_addError]
      · rfl
    · split
      · rw [warnings_addError]
      · rfl

theorem filterBP002_validateTokenType (st : St) (c : Component) :
    (validateTokenType st c).warnings.filter (fun i => i.code = "W-BP-002") =
      st.warnings.filter (fun i => i.code = "W-BP-002") := by
  unfold validateTokenType
  exact filterBP002_ite_addWarning_ne _ _ _ _ _ _ _ _ (by decide)

theorem filterBP002_validateTemporalType (p : Prims) (st : St) (c : Component) :
    (validateTemporalType p st c).warnings.filter (fun i => i.code = "W-BP-002") =
      st.warnings.filter (fun i => i.code = "W-BP-002") := by
  unfold validateTemporalType
  dsimp only
  split
  · split
    · exact filterBP002_ite_addWarning_ne _ _ _ _ _ _ _ _ (by decide)
    · split
      · exact filterBP002_ite_addWarning_ne _ _ _ _ _ _ _ _ (by decide)
      · split
        · rw [warnings_addError]
          exact filterBP002_ite_addWarning_ne _ _ _ _ _ _ _ _ (by decide)
        · exact filterBP002_ite_addWarning_ne _ _ _ _ _ _ _ _ (by decide)
  · exact filterBP002_ite_addWarning_ne _ _ _ _ _ _ _ _ (by decide)

theorem filterBP002_validateOrdinalType (st : St) (c : Component) :
    (validateOrdinalType st c).warnings.filter (fun i => i.code = "W-BP-002") =
      st.warnings.filter (fun i => i.code = "W-BP-002") := by
  unfold validateOrdinalType
  split
  · rfl
  · dsimp only
    split
    · exact filterBP002_addWarning_ne _ _ _ _ _ _ _ (by decide)
    · rfl

theorem filterBP002_validateClusterType (st : St) (c : Component) :
    (validateClusterType st c).warnings.filter (fun i => i.code = "W-BP-002") =
      st.warnings.filter (fun i => i.code = "W-BP-002") := by
  unfold validateClusterType
  exact filterBP002_ite_addWarning_ne _ _ _ _ _ _ _ _ (by decide)

theorem startsWith_at_of_valid (tv : String)
    (h : VALID_TYPES.contains tv = true) :
    startsWithL tv.toList ['@'] = false := by
  simp only [VALID_TYPES, List.contains_cons, List.contains_nil, Bool.or_eq_true,
    beq_iff_eq, Bool.or_false] at h
  rcases h with h | h | h | h | h | h | h | h | h | h | h | h | h | h
  all_goals (subst h; decide)

theorem warnings_ite_addError (st : St) (cond : Prop) [Decidable cond] (code : String)
    (line : Nat) (message fix : String) (component keyword : Option String) :
    (if cond then addError st code line message fix component keyword
     else st).warnings = st.warnings := by
  split <;> rfl

theorem filterBP002_addWarning_bp002 (st : St) (line : Nat) (message fix : String)
    (component keyword : Option String) :
    (addWarning st "W-BP-002" line message fix component keyword).warnings.filter
        (fun i => i.code = "W-BP-002") =
      st.warnings.filter (fun i => i.code = "W-BP-002") ++
        [{ code := "W-BP-002", severity := "WARNING", message := message, line := line,
           context := "", fix := fix, component := component, keyword := keyword }] := by
  simp [addWarning, List.filter_append]

/-- C6 (amended): a component that reaches the non-blocking hygiene checks
(non-empty stripped name, `Type` present, valid inline type value) gets the
W-BP-002 short-name warning exactly when its stripped name is shorter than
3 characters AND its type is not `Cluster` (the warning's own message text
says ">3 characters", but the code's condition is `len(...) < 3`, and
Cluster-typed components are exempt). -/
theorem bp002_short_name (p : Prims) (st : St) (c : Component) (kv : KeywordValue)
    (hname : pyStripS c.name ≠ "")
    (hty : kwFind c "Type" = some kv)
    (hvalid : VALID_TYPES.contains (pyStripS kv.value) = true) :
    (validateComponent p st c).warnings.filter (fun i => i.code = "W-BP-002") =
      st.warnings.filter (fun i => i.code = "W-BP-002") ++
        (if (pyStripS c.name).length < 3 ∧ pyStripS kv.value ≠ "Cluster"
         then [bp002Issue c] else []) := by
  unfold validateComponent
  rw [if_neg hname, hty]
  dsimp only
  rw [startsWith_at_of_valid (pyStripS kv.value) hvalid]
  rw [if_neg Bool.false_ne_true, hvalid,
    if_neg (show ¬¬(true = true) from not_not_intro rfl)]
  rw [filterBP002_ite_addWarning_ne _ _ _ _ _ _ _ _ (by decide)]
  have hdisp : ∀ st0 : St,
      ((if QUANTIFIED_TYPES.contains (pyStripS kv.value) = true then
          validateQuantifiedType p st0 c (pyStripS kv.value)
        else if pyStripS kv.value = "XdString" then validateStringType p st0 c
        else if pyStripS kv.value = "XdToken" then validateTokenType st0 c
        else if pyStripS kv.value = "XdBoolean" then validateBooleanType st0 c
        else if pyStripS kv.value = "XdTemporal" then validateTemporalType p st0 c
        else if pyStripS kv.value = "XdOrdinal" then validateOrdinalType st0 c
        else if pyStripS kv.value = "Cluster" then validateClusterType st0 c
        else st0)).warnings.filter (fun i => i.code = "W-BP-002") =
        st0.warnings.filter (fun i => i.code = "W-BP-002") := by
    intro st0
    split
    · exact filterBP002_validateQuantifiedType p st0 c (pyStripS kv.value)
    · split
      · exact filterBP002_validateStringType p st0 c
      · split
        · exact filterBP002_validateTokenType st0 c
        · split
          · rw [warnings_validateBooleanType]
          · split
            · exact filterBP002_validateTemporalType p st0 c
            · split
              · exact filterBP002_validateOrdinalType st0 c
              · split
                · exact filterBP002_validateClusterType st0 c
                · rfl
  by_cases hcond : (pyStripS c.name).length < 3 ∧ pyStripS kv.value ≠ "Cluster"
  · rw [if_pos hcond, if_pos hcond,
      filterBP002_addWarning_bp002,
      filterBP002_ite_addWarning_ne _ _ _ _ _ _ _ _ (by decide),
      hdisp, warnings_ite_addError]
    rfl
  · rw [if_neg hcond, if_neg hcond,
      filterBP002_ite_addWarning_ne _ _ _ _ _ _ _ _ (by decide),
      hdisp, warnings_ite_addError, List.append_nil]

/-- C6 (counterexample): in `docAge` the parsed component `Age` has a
3-character name (shorter than 4) and reaches the hygiene checks — both
W-BP-001 and W-BP-003 fire for it — yet no W-BP-002 warning is emitted, so
"name shorter than 4 characters → BP-002" is false as stated. -/
theorem bp002_three_char_name_no_warning :
    (validateSt P0 docAge).2.map (fun c =>
        (c.name, (pyStripS c.name).length, (kwFind c "Type").map (·.value))) =
      [("Age", 3, some "XdString")] ∧
    (validate P0 "2026-10-12T10:00:00+00:00" docAge "a.md").warnings.map (·.code) =
      ["W-BP-005", "W-BP-001", "W-BP-003"] := by decide

/-- Witness for C6 (amended): the 2-character component `ID` of type
`XdString` does get the W-BP-002 warning. -/
theorem bp002_short_name_witness :
    pyStripS compID.name ≠ "" ∧
    kwFind compID "Type" = some { value := "XdString", line := 31 } ∧
    VALID_TYPES.contains (pyStripS "XdString") = true ∧
    (validateComponent P0 {} compID).warnings.filter (fun i => i.code = "W-BP-002") =
      ({} : St).warnings.filter (fun i => i.code = "W-BP-002") ++
        (if (pyStripS compID.name).length < 3 ∧ pyStripS "XdString" ≠ "Cluster"
         then [bp002Issue compID] else []) :=
  ⟨by decide, by decide, by decide,
   bp002_short_name P0 {} compID { value := "XdString", line := 31 }
     (by decide) (by decide) (by decide)⟩

theorem firstDefLine_append_single (pre : List Component) (c : Component) (k : String) :
    firstDefLine (pre ++ [c]) k =
      match firstDefLine pre k with
      | some ln => some ln
      | none => if nameKey c = k then some c.start_line else none := by
  unfold firstDefLine
  rw [List.find?_append]
  cases h : List.find? (fun c0 => nameKey c0 = k) pre with
  | none => simp [List.find?_cons]; split <;> simp_all
  | some c0 => simp

theorem seenFind_append_single (seen : List (String × Nat)) (k0 : String) (n : Nat)
    (k : String) :
    seenFind (seen ++ [(k0, n)]) k =
      match seenFind seen k with
      | some ln => some ln
      | none => if k0 = k then some n else none := by
  unfold seenFind
  rw [List.find?_append]
  cases h : List.find? (fun e => e.1 = k) seen with
  | none => simp [List.find?_cons]; split <;> simp_all
  | some e => simp

theorem namesGo_spec :
    ∀ (comps : List Component) (st : St) (seen : List (String × Nat))
      (pre : List Component),
      (∀ k, seenFind seen k = firstDefLine pre k) →
      validateComponentNamesGo st seen comps =
        { st with errors := st.errors ++ cmp005ExpectedGo pre comps } := by
  intro comps
  induction comps with
  | nil =>
      intro st seen pre hinv
      simp [validateComponentNamesGo, cmp005ExpectedGo]
  | cons c rest ih =>
      intro st seen pre hinv
      unfold validateComponentNamesGo cmp005ExpectedGo
      rw [hinv (nameKey c)]
      cases hf : firstDefLine pre (nameKey c) with
      | some ln =>
          dsimp only
          have hinv2 : ∀ k, seenFind seen k = firstDefLine (pre ++ [c]) k := by
            intro k
            rw [firstDefLine_append_single, hinv k]
            cases hk : firstDefLine pre k with
            | some ln2 => rfl
            | none =>
                dsimp only
                split
                · next heq =>
                    rw [heq] at hf
                    rw [hf] at hk
                    cases hk
                · rfl
          rw [ih _ seen (pre ++ [c]) hinv2]
          simp [addError, cmp005Issue, List.append_assoc]
      | none =>
          dsimp only
          have hinv2 : ∀ k,
              seenFind (seen ++ [(nameKey c, c.start_line)]) k =
                firstDefLine (pre ++ [c]) k := by
            intro k
            rw [seenFind_append_single, firstDefLine_append_single, hinv k]
          rw [ih _ _ (pre ++ [c]) hinv2]

/-- C7: `_validate_component_names` compares stripped names
case-insensitively; every component whose key equals that of an earlier
component contributes a critical E-CMP-005 error positioned at the
duplicate's start line and citing the first definition's line, a first
occurrence contributes nothing, and the warning/suggestion buffers are
untouched. -/
theorem duplicate_names_cmp005 (st : St) (comps : List Component) :
    validateComponentNames st comps =
      { st with errors := st.errors ++ cmp005ExpectedGo [] comps } := by
  unfold validateComponentNames
  exact namesGo_spec comps st [] [] (fun k => rfl)

end Form2SDC
